import Mathlib

/-!
Shallow embedding of the Vollmacht PDF generator
(`src/modules/pdf_builder.py`, `src/modules/i18n.py`, `src/app.py`).

Python dictionaries with string keys are modelled as association lists,
`dict.get k d` as `List.lookup` with a default.  ReportLab flowables
(`Paragraph`, `Spacer`, `Table`, `Image`, `Indenter`, `KeepTogether`) become
constructors of the inductive type `Block`; the `elems` list that
`build_vollmacht_pdf_bytes` hands to `doc.build` is the block sequence the
specification talks about.  `SimpleDocTemplate`'s configuration (page size and
the four margins) is recorded in the `PdfDoc` structure next to the block
sequence.  Python floats are modelled as rationals, PIL image decoding as an
abstract `Decoder : List Nat → Option (Nat × Nat)` returning the intrinsic
pixel size or `none` when `PIL.Image.open`/`convert` raises, and a raised
exception that escapes the function as an `Option.none` result.
-/

namespace Vollmacht

/-- A Python `dict[str, str]`, as an association list; lookup finds the
first binding of a key. -/
abbrev StrDict := List (String × String)

/-- Python `d.get(k, dflt)` on a `dict[str, str]`. -/
def dictGet (d : StrDict) (k dflt : String) : String :=
  (d.lookup k).getD dflt

/-- A value stored in the `pdf_options` dict: the recognised numeric options
hold numbers, `title_i18n` holds a string. -/
inductive OptVal where
  | num (q : ℚ)
  | str (s : String)
deriving DecidableEq, Repr

/-- The `pdf_options` dict. -/
abbrev Options := List (String × OptVal)

/-- Python `o.get(k, dflt)` on the options dict. -/
def optGet (o : Options) (k : String) (dflt : OptVal) : OptVal :=
  (o.lookup k).getD dflt

/-- Python `float(v)`: a number converts to itself, a (non-numeric) string
raises `ValueError`, modelled as `none`.  (The code never stores numeric
strings under the numeric option keys, so that Python corner is not
modelled.) -/
def floatOf : OptVal → Option ℚ
  | .num q => some q
  | .str _ => none

/-- `float(pdf_options.get(k, dflt))` as in lines 66–67 of
`src/modules/pdf_builder.py`. -/
def optGetFloat (o : Options) (k : String) (dflt : ℚ) : Option ℚ :=
  floatOf (optGet o k (.num dflt))

/-- Python truthiness of the optional fallback string: `None` and `""` are
falsy, so `fallback or key` yields `key` for both. -/
def pyOrKey (fallback : Option String) (key : String) : String :=
  match fallback with
  | none => key
  | some s => if s = "" then key else s

/-- `tr` from `src/modules/i18n.py` line 15–16 (and `src/app.py` line 46–47):
`return i18n.get(key, fallback or key)`.  The module version's default
fallback `""` is `some ""` here, the app version's default `None` is
`none`; both sit in the falsy branch of `pyOrKey`. -/
def tr (key : String) (i18n : StrDict) (fallback : Option String) : String :=
  (i18n.lookup key).getD (pyOrKey fallback key)

/-- One ReportLab flowable appended to `elems`. -/
inductive Block where
  | para (text : String) (style : String)
  | spacer (w h : ℚ)
  | table (rows : List (List String)) (colWidths : List ℚ) (styled : Bool)
  | image (src : List Nat) (width height : ℚ) (hAlign : String)
  | indenter (left : ℚ)
  | keepTogether (blocks : List Block)

/-- The document handed to `doc.build`: the `SimpleDocTemplate` configuration
(page size, margins exactly as fetched from `pdf_options`, unconverted)
and the flowable sequence `elems`. -/
structure PdfDoc where
  pagesize : String
  leftMargin : OptVal
  rightMargin : OptVal
  topMargin : OptVal
  bottomMargin : OptVal
  elems : List Block

/-- Abstract PIL decode: `PIL.Image.open(BytesIO(b)).convert("RGBA").size`,
`none` when opening or converting raises. -/
abbrev Decoder := List Nat → Option (Nat × Nat)

/-- Python truthiness of the `signature_bytes : bytes | None` argument:
`None` and `b""` are falsy. -/
def pyTruthyBytes : Option (List Nat) → Bool
  | none => false
  | some b => !b.isEmpty

/-- Lines 68–83 of `src/modules/pdf_builder.py` (identical in `src/app.py`
lines 132–149): build `sig_block`.  The `try`/`except Exception: pass`
around the image decode leaves `sig_block` untouched on failure. -/
def sigBlock (decode : Decoder) (signature_bytes : Option (List Nat))
    (target_w max_h : ℚ) : List Block :=
  (if pyTruthyBytes signature_bytes then
    match decode (signature_bytes.getD []) with
    | some (w, h) =>
      let aspect : ℚ := if w ≠ 0 then (h : ℚ) / (w : ℚ) else 1
      let out_w := target_w
      let out_h := min max_h (out_w * aspect)
      [Block.image (signature_bytes.getD []) out_w out_h "LEFT",
       Block.spacer 1 (-12)]
    | none => []
  else [])
  ++ [Block.para "_________________________" "Normal",
      Block.para "Unterschrift des Vollmachtgebers" "Normal"]

/-- The grantor table `tbl1` (lines 35–41 of `src/modules/pdf_builder.py`);
`styled := true` records that `setStyle(table_style)` was applied. -/
def tbl1 (data : StrDict) : Block :=
  Block.table
    [["Name:", dictGet data "vg_name" ""],
     ["Vorname:", dictGet data "vg_vorname" ""],
     ["Geburtsdatum:", dictGet data "vg_geb" ""],
     ["Anschrift:", dictGet data "vg_addr" ""]]
    [100, 350] true

/-- The grantee table `tbl2` (lines 43–49 of `src/modules/pdf_builder.py`). -/
def tbl2 (data : StrDict) : Block :=
  Block.table
    [["Name:", dictGet data "b_name" ""],
     ["Vorname:", dictGet data "b_vorname" ""],
     ["Geburtsdatum:", dictGet data "b_geb" ""],
     ["Anschrift:", dictGet data "b_addr" ""]]
    [100, 350] true

/-- The city/date line of line 63 of `src/modules/pdf_builder.py` (line 127 of
`src/app.py`): `f"{data.get('stadt', '')}, den {data.get('datum', '')}"`. -/
def cityDateText (data : StrDict) : String :=
  dictGet data "stadt" "" ++ ", den " ++ dictGet data "datum" ""

/-- The row matrix of a table block (used to speak about single cells). -/
def tableRows : Block → List (List String)
  | .table rows _ _ => rows
  | _ => []

/-- The option keys the builder reads from `pdf_options`. -/
def recognizedOptionKeys : List String :=
  ["leftMargin", "rightMargin", "topMargin", "bottomMargin",
   "title_i18n", "signature_width_pt", "signature_max_height_pt"]

/-- Title text of the module builder, line 18 of `src/modules/pdf_builder.py`:
`i18n.get(pdf_options.get('title_i18n', 'app.title'), 'Vollmacht')`.
A numeric value stored under `title_i18n` is never a key of the
string-keyed i18n dict, so Python's `i18n.get` returns the default. -/
def titleText (i18n : StrDict) (pdf_options : Options) : String :=
  match optGet pdf_options "title_i18n" (.str "app.title") with
  | .str k => dictGet i18n k "Vollmacht"
  | .num _ => "Vollmacht"

/-- Title text of the app builder, line 80 of `src/app.py`:
`tr(pdf_options.get('title_i18n', 'app.title'), i18n, 'Vollmacht')`. -/
def titleTextApp (i18n : StrDict) (pdf_options : Options) : String :=
  match optGet pdf_options "title_i18n" (.str "app.title") with
  | .str k => tr k i18n (some "Vollmacht")
  | .num _ => "Vollmacht"

/-- `build_vollmacht_pdf_bytes` from `src/modules/pdf_builder.py`, up to the
point where `doc.build(elems)` serialises the flowables: the result is the
configured document with its block sequence.  `none` models the
`ValueError` escaping when `float()` is applied to a string option value
(lines 66–67); everything else in the function is total. -/
def build_vollmacht_pdf_bytes (decode : Decoder) (data : StrDict)
    (signature_bytes : Option (List Nat)) (i18n : StrDict)
    (pdf_options : Options) : Option PdfDoc :=
  match optGetFloat pdf_options "signature_width_pt" 180,
        optGetFloat pdf_options "signature_max_height_pt" 80 with
  | some target_w, some max_h =>
    some
      { pagesize := "A4"
        leftMargin := optGet pdf_options "leftMargin" (.num 40)
        rightMargin := optGet pdf_options "rightMargin" (.num 40)
        topMargin := optGet pdf_options "topMargin" (.num 36)
        bottomMargin := optGet pdf_options "bottomMargin" (.num 36)
        elems :=
          [Block.para ("<b>" ++ titleText i18n pdf_options ++ "</b>") "Title",
           Block.para "zur Abholung und Beantragung des Aufenthaltstitels/Reiseausweises" "Normal",
           Block.spacer 1 12,
           Block.para "Ich:" "Normal",
           Block.para "Vollmachtgeber" "Normal",
           tbl1 data,
           Block.spacer 1 12,
           Block.para "bevollmächtige" "Normal",
           Block.para "Bevollmächtigter/-r" "Normal",
           tbl2 data,
           Block.spacer 1 12,
           Block.para "den Aufenthaltstitel und Reiseausweis zu beantragen/abzuholen, unter Vorlage <u>meines</u> Personaldokuments." "Normal",
           Block.para "<b>Hinweis:</b> Der Bevollmächtigte muss sich bei Vorsprache zur Abholung durch Vorlage eines eigenen Personaldokuments ausweisen." "Normal",
           Block.spacer 1 24,
           Block.para (cityDateText data) "Normal",
           Block.spacer 1 18,
           Block.indenter 0,
           Block.keepTogether (sigBlock decode signature_bytes target_w max_h),
           Block.indenter 0] }
  | _, _ => none

/-- `build_vollmacht_pdf_bytes` from `src/app.py` lines 60–155.  Identical to
the module version except for the title going through `tr` and the purpose
paragraph carrying the extra " (Pass/Reiseausweises)" (line 118). -/
def build_vollmacht_pdf_bytes_app (decode : Decoder) (data : StrDict)
    (signature_bytes : Option (List Nat)) (i18n : StrDict)
    (pdf_options : Options) : Option PdfDoc :=
  match optGetFloat pdf_options "signature_width_pt" 180,
        optGetFloat pdf_options "signature_max_height_pt" 80 with
  | some target_w, some max_h =>
    some
      { pagesize := "A4"
        leftMargin := optGet pdf_options "leftMargin" (.num 40)
        rightMargin := optGet pdf_options "rightMargin" (.num 40)
        topMargin := optGet pdf_options "topMargin" (.num 36)
        bottomMargin := optGet pdf_options "bottomMargin" (.num 36)
        elems :=
          [Block.para ("<b>" ++ titleTextApp i18n pdf_options ++ "</b>") "Title",
           Block.para "zur Abholung und Beantragung des Aufenthaltstitels/Reiseausweises" "Normal",
           Block.spacer 1 12,
           Block.para "Ich:" "Normal",
           Block.para "Vollmachtgeber" "Normal",
           tbl1 data,
           Block.spacer 1 12,
           Block.para "bevollmächtige" "Normal",
           Block.para "Bevollmächtigter/-r" "Normal",
           tbl2 data,
           Block.spacer 1 12,
           Block.para "den Aufenthaltstitel und Reiseausweis zu beantragen/abzuholen, unter Vorlage <u>meines</u> Personaldokuments (Pass/Reiseausweises)." "Normal",
           Block.para "<b>Hinweis:</b> Der Bevollmächtigte muss sich bei Vorsprache zur Abholung durch Vorlage eines eigenen Personaldokuments ausweisen." "Normal",
           Block.spacer 1 24,
           Block.para (cityDateText data) "Normal",
           Block.spacer 1 18,
           Block.indenter 0,
           Block.keepTogether (sigBlock decode signature_bytes target_w max_h),
           Block.indenter 0] }
  | _, _ => none

/-- The four inputs of one build call, bundled so that the state-threaded
variant below can return them after the call. -/
structure Inputs where
  data : StrDict
  signature_bytes : Option (List Nat)
  i18n : StrDict
  pdf_options : Options

/-- `d.get(k, dflt)` as a state-passing read: Python's `dict.get` returns the
value and leaves the dict as it was. -/
def dictGetST (d : StrDict) (k dflt : String) : String × StrDict :=
  (dictGet d k dflt, d)

/-- `o.get(k, dflt)` on the options dict, state-passing. -/
def optGetST (o : Options) (k : String) (dflt : OptVal) : OptVal × Options :=
  (optGet o k dflt, o)

/-- `build_vollmacht_pdf_bytes` with every access to the four inputs threaded
explicitly, in the evaluation order of `src/modules/pdf_builder.py`; the
function returns the inputs alongside the result, so that the frame
property "the builder leaves its inputs unchanged" is a statement about
its second component. -/
def build_vollmacht_pdf_bytesST (decode : Decoder) (inp : Inputs) :
    Option PdfDoc × Inputs :=
  let (lm, o1) := optGetST inp.pdf_options "leftMargin" (.num 40)
  let (rm, o2) := optGetST o1 "rightMargin" (.num 40)
  let (tm, o3) := optGetST o2 "topMargin" (.num 36)
  let (bm, o4) := optGetST o3 "bottomMargin" (.num 36)
  let (tkey, o5) := optGetST o4 "title_i18n" (.str "app.title")
  let (title, i1) :=
    match tkey with
    | .str k => dictGetST inp.i18n k "Vollmacht"
    | .num _ => ("Vollmacht", inp.i18n)
  let (vgName, d1) := dictGetST inp.data "vg_name" ""
  let (vgVorname, d2) := dictGetST d1 "vg_vorname" ""
  let (vgGeb, d3) := dictGetST d2 "vg_geb" ""
  let (vgAddr, d4) := dictGetST d3 "vg_addr" ""
  let (bName, d5) := dictGetST d4 "b_name" ""
  let (bVorname, d6) := dictGetST d5 "b_vorname" ""
  let (bGeb, d7) := dictGetST d6 "b_geb" ""
  let (bAddr, d8) := dictGetST d7 "b_addr" ""
  let (stadt, d9) := dictGetST d8 "stadt" ""
  let (datum, d10) := dictGetST d9 "datum" ""
  let (twv, o6) := optGetST o5 "signature_width_pt" (.num 180)
  let (mhv, o7) := optGetST o6 "signature_max_height_pt" (.num 80)
  let sb := inp.signature_bytes
  let out : Inputs := { data := d10, signature_bytes := sb, i18n := i1, pdf_options := o7 }
  match floatOf twv, floatOf mhv with
  | some target_w, some max_h =>
    (some
      { pagesize := "A4"
        leftMargin := lm
        rightMargin := rm
        topMargin := tm
        bottomMargin := bm
        elems :=
          [Block.para ("<b>" ++ title ++ "</b>") "Title",
           Block.para "zur Abholung und Beantragung des Aufenthaltstitels/Reiseausweises" "Normal",
           Block.spacer 1 12,
           Block.para "Ich:" "Normal",
           Block.para "Vollmachtgeber" "Normal",
           Block.table
             [["Name:", vgName], ["Vorname:", vgVorname],
              ["Geburtsdatum:", vgGeb], ["Anschrift:", vgAddr]] [100, 350] true,
           Block.spacer 1 12,
           Block.para "bevollmächtige" "Normal",
           Block.para "Bevollmächtigter/-r" "Normal",
           Block.table
             [["Name:", bName], ["Vorname:", bVorname],
              ["Geburtsdatum:", bGeb], ["Anschrift:", bAddr]] [100, 350] true,
           Block.spacer 1 12,
           Block.para "den Aufenthaltstitel und Reiseausweis zu beantragen/abzuholen, unter Vorlage <u>meines</u> Personaldokuments." "Normal",
           Block.para "<b>Hinweis:</b> Der Bevollmächtigte muss sich bei Vorsprache zur Abholung durch Vorlage eines eigenen Personaldokuments ausweisen." "Normal",
           Block.spacer 1 24,
           Block.para (stadt ++ ", den " ++ datum) "Normal",
           Block.spacer 1 18,
           Block.indenter 0,
           Block.keepTogether (sigBlock decode sb target_w max_h),
           Block.indenter 0] }, out)
  | _, _ => (none, out)

/-! ## Theorems -/

/-- C2 counterexample: the claim "returns the fallback if a fallback was
given" fails for the explicitly given empty-string fallback: Python's
`fallback or key` is falsy on `""`, so `tr` returns the key, not the
given fallback. -/
theorem tr_given_empty_fallback_counterexample :
    tr "nonexistent.key" [] (some "") = "nonexistent.key" ∧
    ¬ tr "nonexistent.key" [] (some "") = "" := by
  constructor
  · rfl
  · decide

/-- C2 (amended): `tr` returns `table[key]` when present; otherwise the
fallback when a NON-EMPTY fallback was given; otherwise (fallback absent,
`None`, or the empty string) the key itself.  Totality and purity are
intrinsic: `tr` is a total function of its arguments. -/
theorem tr_resolution (key : String) (table : StrDict) (fb : Option String) :
    (∀ v, table.lookup key = some v → tr key table fb = v) ∧
    (table.lookup key = none → ∀ s, fb = some s → s ≠ "" → tr key table fb = s) ∧
    (table.lookup key = none → (fb = none ∨ fb = some "") → tr key table fb = key) := by
  refine ⟨fun v hv => ?_, fun hn s hs hne => ?_, fun hn hfb => ?_⟩
  · simp [tr, hv]
  · subst hs; simp [tr, hn, pyOrKey, hne]
  · rcases hfb with h | h <;> subst h <;> simp [tr, hn, pyOrKey]

/-- Witness for `tr_resolution` at the spec's own example inputs. -/
theorem tr_resolution_witness :
    tr "nonexistent.key" [] (some "Default") = "Default" :=
  (tr_resolution "nonexistent.key" [] (some "Default")).2.1 rfl "Default" rfl (by decide)

/-- C10: for a key absent from the table, `tr` with the empty string as the
explicit fallback (which is also the default of the module version)
returns the key itself, never the empty string unless the key is empty;
the app version's default `None` behaves the same. -/
theorem tr_missing_key_never_empty (key : String) (table : StrDict)
    (h : table.lookup key = none) :
    tr key table (some "") = key ∧ tr key table none = key ∧
    (tr key table (some "") = "" → key = "") := by
  refine ⟨?_, ?_, ?_⟩ <;> simp [tr, h, pyOrKey]

/-- Witness for `tr_missing_key_never_empty`. -/
theorem tr_missing_key_never_empty_witness :
    tr "some.key" [("other.key", "x")] (some "") = "some.key" :=
  (tr_missing_key_never_empty "some.key" [("other.key", "x")] rfl).1

/-- C7: the builder is deterministic — two calls with identical form data,
signature bytes, i18n table and options produce identical documents
(same block sequence, same visible text). -/
theorem build_deterministic (decode : Decoder)
    (data₁ data₂ : StrDict) (sig₁ sig₂ : Option (List Nat))
    (i18n₁ i18n₂ : StrDict) (opts₁ opts₂ : Options)
    (hd : data₁ = data₂) (hs : sig₁ = sig₂) (hi : i18n₁ = i18n₂) (ho : opts₁ = opts₂) :
    build_vollmacht_pdf_bytes decode data₁ sig₁ i18n₁ opts₁ =
      build_vollmacht_pdf_bytes decode data₂ sig₂ i18n₂ opts₂ := by
  subst hd hs hi ho; rfl

/-- Witness for `build_deterministic`. -/
theorem build_deterministic_witness :
    build_vollmacht_pdf_bytes (fun _ => none) [("stadt", "Berlin")] none [] [] =
      build_vollmacht_pdf_bytes (fun _ => none) [("stadt", "Berlin")] none [] [] :=
  build_deterministic (fun _ => none) _ _ _ _ _ _ _ _ rfl rfl rfl rfl

/-- C8: the builder leaves all four inputs unchanged — the state-threaded
rendition of the function returns the form-data dict, the signature
bytes, the i18n dict and the options dict exactly as they came in, while
computing the same document as the pure builder. -/
theorem build_preserves_inputs (decode : Decoder) (inp : Inputs) :
    (build_vollmacht_pdf_bytesST decode inp).2 = inp ∧
    (build_vollmacht_pdf_bytesST decode inp).1 =
      build_vollmacht_pdf_bytes decode inp.data inp.signature_bytes inp.i18n inp.pdf_options := by
  obtain ⟨d, s, i, o⟩ := inp
  constructor <;>
  · simp only [build_vollmacht_pdf_bytesST, build_vollmacht_pdf_bytes, dictGetST, optGetST,
      optGetFloat, titleText, tbl1, tbl2, cityDateText]
    cases optGet o "title_i18n" (OptVal.str "app.title") <;> split <;> rfl

/-- C5: the block sequence has the fixed order — localized title, static
introductory paragraph, grantor table (rows Name/Vorname/Geburtsdatum/
Anschrift, column widths 100pt and 350pt), connector paragraphs, grantee
table, two static informational paragraphs, the "<city>, den <date>" line,
and a signature area wrapped in `KeepTogether` in which the image (when
present) sits immediately above the underscore rule line and the caption. -/
theorem build_block_sequence (decode : Decoder) (data : StrDict)
    (sig : Option (List Nat)) (i18n : StrDict) (opts : Options) (tw mh : ℚ)
    (htw : optGetFloat opts "signature_width_pt" 180 = some tw)
    (hmh : optGetFloat opts "signature_max_height_pt" 80 = some mh) :
    build_vollmacht_pdf_bytes decode data sig i18n opts =
      some
        { pagesize := "A4"
          leftMargin := optGet opts "leftMargin" (.num 40)
          rightMargin := optGet opts "rightMargin" (.num 40)
          topMargin := optGet opts "topMargin" (.num 36)
          bottomMargin := optGet opts "bottomMargin" (.num 36)
          elems :=
            [Block.para ("<b>" ++ titleText i18n opts ++ "</b>") "Title",
             Block.para "zur Abholung und Beantragung des Aufenthaltstitels/Reiseausweises" "Normal",
             Block.spacer 1 12,
             Block.para "Ich:" "Normal",
             Block.para "Vollmachtgeber" "Normal",
             Block.table
               [["Name:", dictGet data "vg_name" ""],
                ["Vorname:", dictGet data "vg_vorname" ""],
                ["Geburtsdatum:", dictGet data "vg_geb" ""],
                ["Anschrift:", dictGet data "vg_addr" ""]] [100, 350] true,
             Block.spacer 1 12,
             Block.para "bevollmächtige" "Normal",
             Block.para "Bevollmächtigter/-r" "Normal",
             Block.table
               [["Name:", dictGet data "b_name" ""],
                ["Vorname:", dictGet data "b_vorname" ""],
                ["Geburtsdatum:", dictGet data "b_geb" ""],
                ["Anschrift:", dictGet data "b_addr" ""]] [100, 350] true,
             Block.spacer 1 12,
             Block.para "den Aufenthaltstitel und Reiseausweis zu beantragen/abzuholen, unter Vorlage <u>meines</u> Personaldokuments." "Normal",
             Block.para "<b>Hinweis:</b> Der Bevollmächtigte muss sich bei Vorsprache zur Abholung durch Vorlage eines eigenen Personaldokuments ausweisen." "Normal",
             Block.spacer 1 24,
             Block.para (cityDateText data) "Normal",
             Block.spacer 1 18,
             Block.indenter 0,
             Block.keepTogether (sigBlock decode sig tw mh),
             Block.indenter 0] } ∧
    ∃ imgPart,
      sigBlock decode sig tw mh =
        imgPart ++ [Block.para "_________________________" "Normal",
                    Block.para "Unterschrift des Vollmachtgebers" "Normal"] ∧
      (imgPart = [] ∨
       ∃ src width height, imgPart = [Block.image src width height "LEFT", Block.spacer 1 (-12)]) := by
  constructor
  · unfold build_vollmacht_pdf_bytes
    rw [htw, hmh]
    rfl
  · unfold sigBlock
    split
    · split
      · exact ⟨_, rfl, Or.inr ⟨_, _, _, rfl⟩⟩
      · exact ⟨[], rfl, Or.inl rfl⟩
    · exact ⟨[], rfl, Or.inl rfl⟩

/-- Witness for `build_block_sequence` at default options and empty inputs. -/
theorem build_block_sequence_witness :
    build_vollmacht_pdf_bytes (fun _ => none) [] none [] [] =
      some
        { pagesize := "A4"
          leftMargin := optGet [] "leftMargin" (.num 40)
          rightMargin := optGet [] "rightMargin" (.num 40)
          topMargin := optGet [] "topMargin" (.num 36)
          bottomMargin := optGet [] "bottomMargin" (.num 36)
          elems :=
            [Block.para ("<b>" ++ titleText [] [] ++ "</b>") "Title",
             Block.para "zur Abholung und Beantragung des Aufenthaltstitels/Reiseausweises" "Normal",
             Block.spacer 1 12,
             Block.para "Ich:" "Normal",
             Block.para "Vollmachtgeber" "Normal",
             Block.table
               [["Name:", dictGet [] "vg_name" ""],
                ["Vorname:", dictGet [] "vg_vorname" ""],
                ["Geburtsdatum:", dictGet [] "vg_geb" ""],
                ["Anschrift:", dictGet [] "vg_addr" ""]] [100, 350] true,
             Block.spacer 1 12,
             Block.para "bevollmächtige" "Normal",
             Block.para "Bevollmächtigter/-r" "Normal",
             Block.table
               [["Name:", dictGet [] "b_name" ""],
                ["Vorname:", dictGet [] "b_vorname" ""],
                ["Geburtsdatum:", dictGet [] "b_geb" ""],
                ["Anschrift:", dictGet [] "b_addr" ""]] [100, 350] true,
             Block.spacer 1 12,
             Block.para "den Aufenthaltstitel und Reiseausweis zu beantragen/abzuholen, unter Vorlage <u>meines</u> Personaldokuments." "Normal",
             Block.para "<b>Hinweis:</b> Der Bevollmächtigte muss sich bei Vorsprache zur Abholung durch Vorlage eines eigenen Personaldokuments ausweisen." "Normal",
             Block.spacer 1 24,
             Block.para (cityDateText []) "Normal",
             Block.spacer 1 18,
             Block.indenter 0,
             Block.keepTogether (sigBlock (fun _ => none) none 180 80),
             Block.indenter 0] } ∧
    ∃ imgPart,
      sigBlock (fun _ => none) none 180 80 =
        imgPart ++ [Block.para "_________________________" "Normal",
                    Block.para "Unterschrift des Vollmachtgebers" "Normal"] ∧
      (imgPart = [] ∨
       ∃ src width height, imgPart = [Block.image src width height "LEFT", Block.spacer 1 (-12)]) :=
  build_block_sequence (fun _ => none) [] none [] [] 180 80 rfl rfl

/-- C4: a form-data key that is absent is rendered as the empty string in the
corresponding table cell or in the city/date line, and the builder still
succeeds. -/
theorem missing_fields_render_empty (decode : Decoder) (data : StrDict)
    (sig : Option (List Nat)) (i18n : StrDict) (opts : Options) (tw mh : ℚ)
    (htw : optGetFloat opts "signature_width_pt" 180 = some tw)
    (hmh : optGetFloat opts "signature_max_height_pt" 80 = some mh) :
    (∃ doc, build_vollmacht_pdf_bytes decode data sig i18n opts = some doc) ∧
    (data.lookup "vg_name" = none → (tableRows (tbl1 data))[0]? = some ["Name:", ""]) ∧
    (data.lookup "vg_vorname" = none → (tableRows (tbl1 data))[1]? = some ["Vorname:", ""]) ∧
    (data.lookup "vg_geb" = none → (tableRows (tbl1 data))[2]? = some ["Geburtsdatum:", ""]) ∧
    (data.lookup "vg_addr" = none → (tableRows (tbl1 data))[3]? = some ["Anschrift:", ""]) ∧
    (data.lookup "b_name" = none → (tableRows (tbl2 data))[0]? = some ["Name:", ""]) ∧
    (data.lookup "b_vorname" = none → (tableRows (tbl2 data))[1]? = some ["Vorname:", ""]) ∧
    (data.lookup "b_geb" = none → (tableRows (tbl2 data))[2]? = some ["Geburtsdatum:", ""]) ∧
    (data.lookup "b_addr" = none → (tableRows (tbl2 data))[3]? = some ["Anschrift:", ""]) ∧
    (data.lookup "stadt" = none → cityDateText data = ", den " ++ dictGet data "datum" "") ∧
    (data.lookup "datum" = none → cityDateText data = dictGet data "stadt" "" ++ ", den ") := by
  refine ⟨⟨_, (build_block_sequence decode data sig i18n opts tw mh htw hmh).1⟩,
    ?_, ?_, ?_, ?_, ?_, ?_, ?_, ?_, ?_, ?_⟩ <;>
    intro h <;> simp [tbl1, tbl2, tableRows, cityDateText, dictGet, h]

/-- Witness for `missing_fields_render_empty`: empty form data, empty
options. -/
theorem missing_fields_render_empty_witness :
    (∃ doc, build_vollmacht_pdf_bytes (fun _ => none) [] none [] [] = some doc) ∧
    (tableRows (tbl1 []))[0]? = some ["Name:", ""] ∧
    (tableRows (tbl2 []))[3]? = some ["Anschrift:", ""] ∧
    cityDateText [] = ", den " := by
  obtain ⟨h1, h2, h3, h4, h5, h6, h7, h8, h9, h10, h11⟩ :=
    missing_fields_render_empty (fun _ => none) [] none [] [] 180 80 rfl rfl
  exact ⟨h1, h2 rfl, h9 rfl, by rw [h10 rfl]; rfl⟩

/-- C3: a `None`, empty, or undecodable signature leaves the document exactly
as the no-signature document, without failing, and the underscore rule
line and the grantor-signature caption still render. -/
theorem invalid_signature_degrades (decode : Decoder) (data : StrDict)
    (i18n : StrDict) (opts : Options) (sig : Option (List Nat))
    (h : sig = none ∨ sig = some [] ∨ ∃ b, sig = some b ∧ decode b = none) :
    build_vollmacht_pdf_bytes decode data sig i18n opts =
      build_vollmacht_pdf_bytes decode data none i18n opts ∧
    ∀ tw mh : ℚ, sigBlock decode sig tw mh =
      [Block.para "_________________________" "Normal",
       Block.para "Unterschrift des Vollmachtgebers" "Normal"] := by
  have hsig : ∀ tw mh : ℚ, sigBlock decode sig tw mh =
      [Block.para "_________________________" "Normal",
       Block.para "Unterschrift des Vollmachtgebers" "Normal"] := by
    intro tw mh
    rcases h with rfl | rfl | ⟨b, rfl, hb⟩
    · rfl
    · rfl
    · cases he : b.isEmpty
      · simp [sigBlock, pyTruthyBytes, he, hb]
      · simp [sigBlock, pyTruthyBytes, he]
  refine ⟨?_, hsig⟩
  unfold build_vollmacht_pdf_bytes
  split
  · rw [hsig]; rfl
  · rfl

/-- Witness for `invalid_signature_degrades`: a nonempty buffer the decoder
rejects. -/
theorem invalid_signature_degrades_witness :
    build_vollmacht_pdf_bytes (fun _ => none) [] (some [137, 80]) [] [] =
      build_vollmacht_pdf_bytes (fun _ => none) [] none [] [] ∧
    ∀ tw mh : ℚ, sigBlock (fun _ => none) (some [137, 80]) tw mh =
      [Block.para "_________________________" "Normal",
       Block.para "Unterschrift des Vollmachtgebers" "Normal"] :=
  invalid_signature_degrades (fun _ => none) [] [] [] (some [137, 80])
    (Or.inr (Or.inr ⟨[137, 80], rfl, rfl⟩))

/-- C1: a nonempty signature buffer whose decode yields intrinsic size
`(w, h)` produces an image block of width exactly `target_w`; its height
is `min max_h (target_w * h / w)` when `w > 0` and `min max_h
(target_w * 1)` when `w = 0` (aspect ratio taken as 1 instead of dividing
by zero), for any positive `target_w` and `max_h`. -/
theorem signature_scaling (decode : Decoder) (b : List Nat) (w h : Nat)
    (tw mh : ℚ) (htw : 0 < tw) (hmh : 0 < mh) (hb : b ≠ [])
    (hdec : decode b = some (w, h)) :
    ∃ ht : ℚ,
      sigBlock decode (some b) tw mh =
        [Block.image b tw ht "LEFT", Block.spacer 1 (-12),
         Block.para "_________________________" "Normal",
         Block.para "Unterschrift des Vollmachtgebers" "Normal"] ∧
      (0 < w → ht = min mh (tw * (h : ℚ) / (w : ℚ))) ∧
      (w = 0 → ht = min mh (tw * 1)) := by
  obtain ⟨x, xs, rfl⟩ : ∃ x xs, b = x :: xs := by
    cases b with
    | nil => exact absurd rfl hb
    | cons x xs => exact ⟨x, xs, rfl⟩
  refine ⟨min mh (tw * (if w ≠ 0 then (h : ℚ) / (w : ℚ) else 1)), ?_, ?_, ?_⟩
  · simp [sigBlock, pyTruthyBytes, hdec]
  · intro hw
    rw [if_pos (Nat.pos_iff_ne_zero.mp hw), mul_div_assoc]
  · intro hw
    rw [if_neg (by simpa using hw)]

/-- Witness for `signature_scaling`: a 400×120 image at the default
`target_width = 180`, `max_height = 80` — the spec's own end-to-end
example, where the height comes out as `min 80 54 = 54`. -/
theorem signature_scaling_witness :
    (∃ ht : ℚ,
      sigBlock (fun _ => some (400, 120)) (some [1]) 180 80 =
        [Block.image [1] 180 ht "LEFT", Block.spacer 1 (-12),
         Block.para "_________________________" "Normal",
         Block.para "Unterschrift des Vollmachtgebers" "Normal"] ∧
      (0 < 400 → ht = min 80 (180 * (120 : ℚ) / (400 : ℚ))) ∧
      (400 = 0 → ht = min 80 (180 * 1))) ∧
    min (80 : ℚ) (180 * (120 : ℚ) / (400 : ℚ)) = 54 :=
  ⟨signature_scaling (fun _ => some (400, 120)) [1] 400 120 180 80
    (by norm_num) (by norm_num) (by simp) rfl, by norm_num⟩

/-- Looking a key up past a differently-keyed head binding. -/
theorem lookup_cons_ne {β : Type} (k k' : String) (v : β) (l : List (String × β))
    (h : k' ≠ k) : (((k, v) :: l).lookup k') = l.lookup k' := by
  simp [List.lookup, beq_eq_false_iff_ne.mpr h]

/-- C6: for every options mapping, each recognized option that is omitted
independently takes its stated default — building with the key absent is
building with the key explicitly bound to its default (left/right margins
40pt, top/bottom margins 36pt, signature target width 180pt, signature
maximum height 80pt, title key "app.title"), whatever the other keys
hold — and a binding for an unrecognized key has no effect on the
output. -/
theorem option_defaults_and_unrecognized_ignored (decode : Decoder)
    (data : StrDict) (sig : Option (List Nat)) (i18n : StrDict) (opts : Options) :
    (opts.lookup "leftMargin" = none →
      build_vollmacht_pdf_bytes decode data sig i18n opts =
        build_vollmacht_pdf_bytes decode data sig i18n (("leftMargin", OptVal.num 40) :: opts)) ∧
    (opts.lookup "rightMargin" = none →
      build_vollmacht_pdf_bytes decode data sig i18n opts =
        build_vollmacht_pdf_bytes decode data sig i18n (("rightMargin", OptVal.num 40) :: opts)) ∧
    (opts.lookup "topMargin" = none →
      build_vollmacht_pdf_bytes decode data sig i18n opts =
        build_vollmacht_pdf_bytes decode data sig i18n (("topMargin", OptVal.num 36) :: opts)) ∧
    (opts.lookup "bottomMargin" = none →
      build_vollmacht_pdf_bytes decode data sig i18n opts =
        build_vollmacht_pdf_bytes decode data sig i18n (("bottomMargin", OptVal.num 36) :: opts)) ∧
    (opts.lookup "title_i18n" = none →
      build_vollmacht_pdf_bytes decode data sig i18n opts =
        build_vollmacht_pdf_bytes decode data sig i18n (("title_i18n", OptVal.str "app.title") :: opts)) ∧
    (opts.lookup "signature_width_pt" = none →
      build_vollmacht_pdf_bytes decode data sig i18n opts =
        build_vollmacht_pdf_bytes decode data sig i18n (("signature_width_pt", OptVal.num 180) :: opts)) ∧
    (opts.lookup "signature_max_height_pt" = none →
      build_vollmacht_pdf_bytes decode data sig i18n opts =
        build_vollmacht_pdf_bytes decode data sig i18n (("signature_max_height_pt", OptVal.num 80) :: opts)) ∧
    (∀ (k : String) (v : OptVal), k ∉ recognizedOptionKeys →
      build_vollmacht_pdf_bytes decode data sig i18n ((k, v) :: opts) =
        build_vollmacht_pdf_bytes decode data sig i18n opts) := by
  refine ⟨?_, ?_, ?_, ?_, ?_, ?_, ?_, ?_⟩
  · intro h
    simp only [build_vollmacht_pdf_bytes, optGetFloat, optGet, titleText]
    simp [List.lookup, h]
  · intro h
    simp only [build_vollmacht_pdf_bytes, optGetFloat, optGet, titleText]
    simp [List.lookup, h]
  · intro h
    simp only [build_vollmacht_pdf_bytes, optGetFloat, optGet, titleText]
    simp [List.lookup, h]
  · intro h
    simp only [build_vollmacht_pdf_bytes, optGetFloat, optGet, titleText]
    simp [List.lookup, h]
  · intro h
    simp only [build_vollmacht_pdf_bytes, optGetFloat, optGet, titleText]
    simp [List.lookup, h]
  · intro h
    simp only [build_vollmacht_pdf_bytes, optGetFloat, optGet, titleText]
    simp [List.lookup, h]
  · intro h
    simp only [build_vollmacht_pdf_bytes, optGetFloat, optGet, titleText]
    simp [List.lookup, h]
  · intro k v hk
    have hne : ∀ k' ∈ recognizedOptionKeys, k' ≠ k := fun k' hk' heq => hk (heq ▸ hk')
    simp only [build_vollmacht_pdf_bytes, optGetFloat, optGet, titleText]
    rw [lookup_cons_ne _ _ _ _ (hne "leftMargin" (by decide)),
        lookup_cons_ne _ _ _ _ (hne "rightMargin" (by decide)),
        lookup_cons_ne _ _ _ _ (hne "topMargin" (by decide)),
        lookup_cons_ne _ _ _ _ (hne "bottomMargin" (by decide)),
        lookup_cons_ne _ _ _ _ (hne "title_i18n" (by decide)),
        lookup_cons_ne _ _ _ _ (hne "signature_width_pt" (by decide)),
        lookup_cons_ne _ _ _ _ (hne "signature_max_height_pt" (by decide))]

/-- Witness for `option_defaults_and_unrecognized_ignored`: with `leftMargin`
present, the omitted `rightMargin` still defaults to 40, and an options
dict holding only an unrecognized key behaves like the empty one. -/
theorem option_defaults_and_unrecognized_ignored_witness :
    (build_vollmacht_pdf_bytes (fun _ => none) [] none [] [("leftMargin", OptVal.num 10)] =
      build_vollmacht_pdf_bytes (fun _ => none) [] none []
        (("rightMargin", OptVal.num 40) :: [("leftMargin", OptVal.num 10)])) ∧
    build_vollmacht_pdf_bytes (fun _ => none) [] none []
        [("watermark", OptVal.str "draft")] =
      build_vollmacht_pdf_bytes (fun _ => none) [] none [] [] :=
  ⟨(option_defaults_and_unrecognized_ignored (fun _ => none) [] none []
      [("leftMargin", OptVal.num 10)]).2.1 (by decide),
   (option_defaults_and_unrecognized_ignored (fun _ => none) [] none [] []).2.2.2.2.2.2.2
      "watermark" (OptVal.str "draft") (by decide)⟩

/-- The app builder resolves the title through `tr` with the truthy fallback
"Vollmacht", which coincides with the module builder's plain
`i18n.get(..., 'Vollmacht')`. -/
theorem titleTextApp_eq (i18n : StrDict) (o : Options) :
    titleTextApp i18n o = titleText i18n o := by
  unfold titleTextApp titleText
  cases optGet o "title_i18n" (OptVal.str "app.title") <;>
    simp [tr, pyOrKey, dictGet]

/-- C9 counterexample: at concrete inputs the two copies of the builder
produce different block sequences — the purpose paragraph texts differ. -/
theorem builders_not_equivalent_counterexample :
    build_vollmacht_pdf_bytes (fun _ => none) [] none [] [] ≠
      build_vollmacht_pdf_bytes_app (fun _ => none) [] none [] [] := by
  intro hEq
  have h := congrArg
    (fun x : Option PdfDoc =>
      match x with
      | some d =>
        match d.elems.get? 11 with
        | some (Block.para t _) => t
        | _ => ""
      | none => "") hEq
  simp only [build_vollmacht_pdf_bytes, build_vollmacht_pdf_bytes_app] at h
  exact absurd h (by decide)

/-- C9 (amended): the two builder copies agree on every block except the
purpose paragraph at position 11, where the `src/app.py` copy appends
" (Pass/Reiseausweises)" before the final period. -/
theorem builders_agree_outside_purpose_paragraph (decode : Decoder)
    (data : StrDict) (sig : Option (List Nat)) (i18n : StrDict) (opts : Options) :
    build_vollmacht_pdf_bytes_app decode data sig i18n opts =
      (build_vollmacht_pdf_bytes decode data sig i18n opts).map
        (fun doc =>
          { doc with
            elems := doc.elems.set 11
              (Block.para "den Aufenthaltstitel und Reiseausweis zu beantragen/abzuholen, unter Vorlage <u>meines</u> Personaldokuments (Pass/Reiseausweises)." "Normal") }) := by
  unfold build_vollmacht_pdf_bytes_app build_vollmacht_pdf_bytes
  rw [titleTextApp_eq]
  cases h1 : optGetFloat opts "signature_width_pt" 180 <;>
    cases h2 : optGetFloat opts "signature_max_height_pt" 80 <;> rfl

end Vollmacht
